import Mathlib

/-!
# Shallow embedding of the AI-system testing framework

This file embeds the evaluation core of
`src/archive/05-validation-framework/test_framework_design.py`:
the configuration / test-case / result data model, the outcome validator
(`ProductionAISystem.validate_output`), the trial executor
(`AISystemTester.run_single_test`), the per-pair statistical aggregation
(the analysis portion of `AISystemTester.run_statistical_validation`),
the difficulty classifier (`AISystemTester._analyze_test_case_difficulty`)
and the configuration ranking (`AISystemTester._analyze_model_comparison`).

Python floats are embedded as `ℚ` (the numeric computations are exact
arithmetic on the embedded values); Python `None`-able fields are `Option`;
exceptions raised by collaborator calls are `Except`/explicit outcome
constructors, so that the totality of the Lean functions models the
"never raises to the caller" behaviour of the corresponding Python code.
External library primitives used by the validator (`json.loads`, `float`,
`re.search`) are supplied as an explicit environment of boolean oracles,
since they are Python standard-library collaborators, not code of this
repository; every branch decision of the repository's own code is embedded
verbatim.
-/

namespace TestFramework

/-- The dict built by `ProductionAISystem.validate_output`:
`{"valid": ..., "issues": [...], "quality_score": ...}`. -/
structure ValidationResult where
  valid : Bool
  issues : List String
  quality_score : ℚ
deriving DecidableEq, Repr

/-- Value returned by a test case's custom validation function
(`test_case.validation_function`).  The Python code distinguishes a `dict`
result, whose `"valid"` / `"issues"` / `"quality_multiplier"` entries are
read with defaults `True` / `[]` / `1.0` (the fields below hold the result
of those `get` calls), from any non-dict result, of which only its
truthiness is inspected. -/
inductive CustomVerdict where
  | dict (valid : Bool) (issues : List String) (qualityMultiplier : ℚ)
  | nonDict (truthy : Bool)
deriving DecidableEq, Repr

/-- A test case (`TestCase` dataclass).  `input_data` is opaque to the core
and embedded as a string; `validation_function` receives the raw output (the
Python function also receives the test case itself, which is the enclosing
record and is curried away here) and either returns a `CustomVerdict` or
raises, embedded as `Except` with the exception text on the error side. -/
structure TestCase where
  id : String
  name : String
  input_data : String
  expected_output_pattern : Option String := none
  expected_output_type : String := "any"
  validation_function : Option (String → Except String CustomVerdict) := none
  difficulty_level : String := "medium"
  category : String := "general"
  metadata : List (String × String) := []

/-- Boolean oracles for the Python standard-library primitives used by
`validate_output`: `jsonLoadsOk s` holds iff `json.loads(s)` succeeds,
`floatParseOk s` iff `float(s.strip())` succeeds, and `reSearch p s` iff
`re.search(p, s)` finds a match.  These are external collaborators of the
repository's code; the theorems below quantify over every such environment. -/
structure PyEnv where
  jsonLoadsOk : String → Bool
  floatParseOk : String → Bool
  reSearch : String → String → Bool

/-- The result dict as initialised on lines 157–161:
`{"valid": True, "issues": [], "quality_score": 1.0}`. -/
def initialValidation : ValidationResult :=
  { valid := true, issues := [], quality_score := 1 }

/-- The "Basic type validation" block of `validate_output` (lines 163–178),
as an update of the threaded result dict. -/
def typeCheckBlock (env : PyEnv) (output : String) (tc : TestCase)
    (v : ValidationResult) : ValidationResult :=
  if tc.expected_output_type ≠ "any" then
    if tc.expected_output_type = "json" then
      if env.jsonLoadsOk output then v
      else { valid := false
             issues := v.issues ++ ["Output is not valid JSON"]
             quality_score := v.quality_score * (1/2) }
    else if tc.expected_output_type = "numeric" then
      if env.floatParseOk output then v
      else { valid := false
             issues := v.issues ++ ["Output is not numeric"]
             quality_score := v.quality_score * (1/2) }
    else v
  else v

/-- The "Pattern validation" block of `validate_output` (lines 180–186).
`if test_case.expected_output_pattern:` is Python truthiness on an optional
string, hence the extra `p ≠ ""` guard. -/
def patternCheckBlock (env : PyEnv) (output : String) (tc : TestCase)
    (v : ValidationResult) : ValidationResult :=
  match tc.expected_output_pattern with
  | some p =>
    if p ≠ "" then
      if env.reSearch p output then v
      else { valid := false
             issues := v.issues ++ ["Output does not match pattern: " ++ p]
             quality_score := v.quality_score * (7/10) }
    else v
  | none => v

/-- The "Custom validation function" block of `validate_output`
(lines 188–203), including the `except` clause that records a raising
custom function as an issue with a `0.8` quality factor and leaves the
`valid` flag untouched. -/
def customCheckBlock (output : String) (tc : TestCase)
    (v : ValidationResult) : ValidationResult :=
  match tc.validation_function with
  | some f =>
    match f output with
    | .ok (.dict cvalid cissues cmult) =>
      let vA := if ¬ cvalid then { v with valid := false, issues := v.issues ++ cissues } else v
      { vA with quality_score := vA.quality_score * cmult }
    | .ok (.nonDict truthy) =>
      if ¬ truthy then
        { valid := false
          issues := v.issues ++ ["Custom validation failed"]
          quality_score := v.quality_score * (3/10) }
      else v
    | .error e =>
      { v with
        issues := v.issues ++ ["Validation function error: " ++ e]
        quality_score := v.quality_score * (4/5) }
  | none => v

/-- `ProductionAISystem.validate_output` (lines 155–205): the three blocks
applied in order to the initial result dict. -/
def validate_output (env : PyEnv) (output : String) (tc : TestCase) : ValidationResult :=
  customCheckBlock output tc
    (patternCheckBlock env output tc
      (typeCheckBlock env output tc initialValidation))

/-- The branch condition under which the type-check stage of
`validate_output` records no issue. -/
def typeCheckPasses (env : PyEnv) (output : String) (tc : TestCase) : Bool :=
  if tc.expected_output_type = "json" then env.jsonLoadsOk output
  else if tc.expected_output_type = "numeric" then env.floatParseOk output
  else true

/-- The branch condition under which the pattern-check stage of
`validate_output` records no issue. -/
def patternCheckPasses (env : PyEnv) (output : String) (tc : TestCase) : Bool :=
  match tc.expected_output_pattern with
  | some p => if p ≠ "" then env.reSearch p output else true
  | none => true

/-- `TestResult` dataclass: the immutable record of one trial. -/
structure TestResult where
  test_case_id : String
  model_config_hash : String
  execution_timestamp : String
  success : Bool
  output : Option String
  execution_time_ms : ℚ
  error_message : Option String := none
  quality_score : Option ℚ := none
  validation_details : Option ValidationResult := none
deriving DecidableEq, Repr

/-- The dict returned by the abstract `call_ai_system` capability on a
normal return: `{"success": ..., "output": ..., "error": ...}`.  The
repository's concrete adapter (`ProductionAISystem.call_ai_system`) always
supplies `"output"` on a successful response (`result.get("output", "")`),
so `output` is a plain string. -/
structure CallResponse where
  success : Bool
  output : String
  error : Option String := none
deriving DecidableEq, Repr

/-- Outcome of awaiting `call_ai_system`: either a returned response dict or
an exception propagating out of the capability (caught by the `except`
clause of `run_single_test`). -/
inductive CallOutcome where
  | resp (r : CallResponse)
  | exn (message : String)
deriving DecidableEq, Repr

/-- `AISystemTester.run_single_test` (lines 242–290).  The tester is generic
over the system under test, so the system's `validate_output` operation is a
parameter; the capability call's outcome, the measured wall-clock latency
and the timestamp are inputs (they come from collaborators).  The Python
`try`/`except` that converts a raised exception into a failed `TestResult`
is the `.exn` branch; the function is total, which models "never raises to
the caller". -/
def run_single_test (validate : String → TestCase → ValidationResult)
    (config_hash : String) (tc : TestCase) (call : CallOutcome)
    (execution_time : ℚ) (timestamp : String) : TestResult :=
  match call with
  | .exn e =>
    { test_case_id := tc.id
      model_config_hash := config_hash
      execution_timestamp := timestamp
      success := false
      output := none
      execution_time_ms := execution_time
      error_message := some e }
  | .resp r =>
    if r.success then
      let v := validate r.output tc
      { test_case_id := tc.id
        model_config_hash := config_hash
        execution_timestamp := timestamp
        success := v.valid
        output := some r.output
        execution_time_ms := execution_time
        quality_score := some v.quality_score
        validation_details := some v }
    else
      { test_case_id := tc.id
        model_config_hash := config_hash
        execution_timestamp := timestamp
        success := false
        output := none
        execution_time_ms := execution_time
        error_message := some (r.error.getD "Unknown error") }

/-- Whether the capability call failed at the capability level: the call
raised, or returned a response whose `success` flag is false. -/
def callFailed : CallOutcome → Bool
  | .exn _ => true
  | .resp r => !r.success

/-- The failure reason that `run_single_test` records for a failed call:
the exception text, or `ai_response.get("error", "Unknown error")`. -/
def failureReason : CallOutcome → String
  | .exn e => e
  | .resp r => r.error.getD "Unknown error"

/-! ## Statistical aggregation (`run_statistical_validation`, lines 304–324)

Only the reduction of the collected `results` list into summary statistics
is evaluation logic; the trial loop (awaiting calls and the fixed
inter-trial sleep) is scheduling around it. -/

/-- `statistics.mean` on an embedded float list (exact rational mean;
`meanQ [] = 0` by ℚ division by zero, whereas Python raises — callers in
the source only apply it to nonempty lists). -/
def meanQ (l : List ℚ) : ℚ := l.sum / l.length

/-- The square of `statistics.stdev`: the sample variance, with the n−1
denominator.  The embedding states standard-deviation facts through this
exact rational; `stdev` itself is its (monotone, injective on nonnegatives)
square root. -/
def sampleVarianceQ (l : List ℚ) : ℚ :=
  (l.map (fun x => (x - meanQ l) ^ 2)).sum / ((l.length : ℚ) - 1)

/-- `success_rate = sum(1 for r in results if r.success) / len(results)`. -/
def success_rate (results : List TestResult) : ℚ :=
  ((results.filter (fun r => r.success)).length : ℚ) / (results.length : ℚ)

/-- `quality_scores = [r.quality_score for r in results if r.quality_score is not None]`. -/
def quality_scores (results : List TestResult) : List ℚ :=
  results.filterMap (fun r => r.quality_score)

/-- `avg_quality_score = statistics.mean(quality_scores) if quality_scores else 0`. -/
def avg_quality_score (results : List TestResult) : ℚ :=
  if quality_scores results = [] then 0 else meanQ (quality_scores results)

/-- The square of
`quality_score_std = statistics.stdev(quality_scores) if len(quality_scores) > 1 else 0`. -/
def quality_score_std_sq (results : List TestResult) : ℚ :=
  if 1 < (quality_scores results).length then sampleVarianceQ (quality_scores results) else 0

/-- `unique_outputs = set(str(r.output) for r in results if r.output is not None)`
(line 309).  Outputs are embedded as strings, so `str` of an output is the
output itself; the filter is on output presence, not on the success flag. -/
def unique_outputs (results : List TestResult) : Finset String :=
  (results.filterMap (fun r => r.output)).toFinset

/-- `consistency_score = 1.0 / len(unique_outputs) if unique_outputs else 0.0`
(line 310). -/
def consistency_score (results : List TestResult) : ℚ :=
  if unique_outputs results = ∅ then 0 else 1 / ((unique_outputs results).card : ℚ)

/-- Modelled from the claim's words, not from the code (for comparison with
`unique_outputs`): the distinct stringified outputs among the *successful*
trials only. -/
def claimed_unique_outputs (results : List TestResult) : Finset String :=
  ((results.filter (fun r => r.success)).filterMap (fun r => r.output)).toFinset

/-- Modelled from the claim's words, not from the code: `1/U` with `U` the
number of distinct outputs among successful trials. -/
def claimed_consistency_score (results : List TestResult) : ℚ :=
  1 / ((claimed_unique_outputs results).card : ℚ)

/-! ## Difficulty classification (`_analyze_test_case_difficulty`, lines 444–471) -/

/-- Line 462:
`"easy" if avg_success_rate > 0.8 else "medium" if avg_success_rate > 0.5 else "hard"`. -/
def difficulty_level (avg_success_rate : ℚ) : String :=
  if avg_success_rate > 4/5 then "easy"
  else if avg_success_rate > 1/2 then "medium"
  else "hard"

/-- The per-test-case classification: the analyzer collects, for one test
case id, its `success_rate` under every configuration and classifies
`statistics.mean` of that list. -/
def analyze_difficulty (success_rates : List ℚ) : String :=
  difficulty_level (meanQ success_rates)

/-- Rank order of the three difficulty labels, `hard < medium < easy`,
used to state monotonicity of the classification. -/
def difficultyRank (d : String) : ℕ :=
  if d = "hard" then 0 else if d = "medium" then 1 else 2

/-! ## Configuration ranking (`_analyze_model_comparison`, lines 398–442) -/

/-- One entry of the `config_performance` list assembled on lines 409–417. -/
structure ConfigPerformance where
  config_hash : String
  model_id : String
  overall_success_rate : ℚ
  avg_consistency : ℚ
  tests_passed : ℕ
deriving DecidableEq, Repr

/-- Line 420:
`config_performance.sort(key=lambda x: x["overall_success_rate"], reverse=True)`.
Python's sort is stable; with `reverse=True` it places `a` before `b`
exactly when `key(a) > key(b)`, or when the keys are equal and `a` preceded
`b`, which is stable merge sort under the boolean comparator
`le a b := key b ≤ key a`. -/
def rank_configurations (config_performance : List ConfigPerformance) : List ConfigPerformance :=
  config_performance.mergeSort (fun a b => decide (b.overall_success_rate ≤ a.overall_success_rate))

/-! ## Configuration identifier (`AIModelConfiguration.get_config_hash`, lines 46–49)

`config_string = json.dumps(asdict(self), sort_keys=True)` followed by
`hashlib.md5(config_string.encode()).hexdigest()[:8]`.  The MD5 algorithm
(RFC 1321, as computed by `hashlib.md5`) is embedded below over byte lists
with 32-bit words as `Nat` reduced mod `2^32`. -/

/-- A JSON value as serialized by `json.dumps`.  Python floats are
serialized by their `repr`; the embedding carries that decimal rendering in
the `num` constructor (the identifier theorems do not depend on the
rendering, only on its determinism). -/
inductive JValue where
  | null
  | bool (b : Bool)
  | str (s : String)
  | num (render : String)
deriving DecidableEq, Repr

/-- `json.dumps` escaping for characters inside a string literal. -/
def jsonEscapeChar (c : Char) : String :=
  if c = '\\' then "\\\\"
  else if c = '"' then "\\\""
  else if c = '\n' then "\\n"
  else if c = '\r' then "\\r"
  else if c = '\t' then "\\t"
  else String.singleton c

/-- A JSON string literal: quoted, with characters escaped. -/
def jsonDumpStr (s : String) : String :=
  "\"" ++ String.join (s.toList.map jsonEscapeChar) ++ "\""

/-- Serialization of one JSON value (`json.dumps` leaf forms). -/
def jsonDumpValue : JValue → String
  | .null => "null"
  | .bool b => if b then "true" else "false"
  | .str s => jsonDumpStr s
  | .num r => r

/-- The `sort_keys=True` canonicalization: the dict items in ascending key
order (stable merge sort by key). -/
def sortedItems (items : List (String × JValue)) : List (String × JValue) :=
  items.mergeSort (fun a b => decide (a.1 ≤ b.1))

/-- `json.dumps(d, sort_keys=True)` of a dict with the default separators
`", "` and `": "`. -/
def jsonDumpsSortKeys (items : List (String × JValue)) : String :=
  "\x7b" ++
    String.intercalate ", "
      ((sortedItems items).map (fun p => jsonDumpStr p.1 ++ ": " ++ jsonDumpValue p.2)) ++
  "\x7d"

/-- MD5 per-round left-rotation amounts. -/
def md5ShiftTable : List Nat :=
  [7, 12, 17, 22, 7, 12, 17, 22, 7, 12, 17, 22, 7, 12, 17, 22,
   5, 9, 14, 20, 5, 9, 14, 20, 5, 9, 14, 20, 5, 9, 14, 20,
   4, 11, 16, 23, 4, 11, 16, 23, 4, 11, 16, 23, 4, 11, 16, 23,
   6, 10, 15, 21, 6, 10, 15, 21, 6, 10, 15, 21, 6, 10, 15, 21]

/-- MD5 per-round additive constants (⌊2³² · |sin(i+1)|⌋). -/
def md5SineTable : List Nat :=
  [0xd76aa478, 0xe8c7b756, 0x242070db, 0xc1bdceee,
   0xf57c0faf, 0x4787c62a, 0xa8304613, 0xfd469501,
   0x698098d8, 0x8b44f7af, 0xffff5bb1, 0x895cd7be,
   0x6b901122, 0xfd987193, 0xa679438e, 0x49b40821,
   0xf61e2562, 0xc040b340, 0x265e5a51, 0xe9b6c7aa,
   0xd62f105d, 0x02441453, 0xd8a1e681, 0xe7d3fbc8,
   0x21e1cde6, 0xc33707d6, 0xf4d50d87, 0x455a14ed,
   0xa9e3e905, 0xfcefa3f8, 0x676f02d9, 0x8d2a4c8a,
   0xfffa3942, 0x8771f681, 0x6d9d6122, 0xfde5380c,
   0xa4beea44, 0x4bdecfa9, 0xf6bb4b60, 0xbebfbc70,
   0x289b7ec6, 0xeaa127fa, 0xd4ef3085, 0x04881d05,
   0xd9d4d039, 0xe6db99e5, 0x1fa27cf8, 0xc4ac5665,
   0xf4292244, 0x432aff97, 0xab9423a7, 0xfc93a039,
   0x655b59c3, 0x8f0ccc92, 0xffeff47d, 0x85845dd1,
   0x6fa87e4f, 0xfe2ce6e0, 0xa3014314, 0x4e0811a1,
   0xf7537e82, 0xbd3af235, 0x2ad7d2bb, 0xeb86d391]

/-- 32-bit addition on `Nat`. -/
def add32 (a b : Nat) : Nat := (a + b) % 4294967296

/-- 32-bit complement on `Nat`. -/
def not32 (a : Nat) : Nat := 4294967295 ^^^ a

/-- 32-bit left rotation on `Nat` (argument assumed < 2³²). -/
def rotl32 (x s : Nat) : Nat := ((x <<< s) ||| (x >>> (32 - s))) &&& 4294967295

/-- `count` little-endian bytes of `n`. -/
def leBytes (n count : Nat) : List Nat :=
  (List.range count).map (fun i => (n >>> (8 * i)) &&& 255)

/-- MD5 padding: append `0x80`, zero-pad to 56 mod 64, then the 64-bit
little-endian bit length. -/
def md5Pad (msg : List Nat) : List Nat :=
  let zeros := (120 - ((msg.length + 1) % 64)) % 64
  msg ++ [128] ++ List.replicate zeros 0 ++ leBytes (8 * msg.length) 8

/-- The sixteen little-endian 32-bit words of one 64-byte chunk. -/
def chunkWords (chunk : List Nat) : List Nat :=
  (List.range 16).map (fun j =>
    chunk.getD (4 * j) 0 + (chunk.getD (4 * j + 1) 0) <<< 8 +
      (chunk.getD (4 * j + 2) 0) <<< 16 + (chunk.getD (4 * j + 3) 0) <<< 24)

/-- One of the 64 MD5 rounds on the working state `(a, b, c, d)`. -/
def md5Round (M : List Nat) (st : Nat × Nat × Nat × Nat) (i : Nat) : Nat × Nat × Nat × Nat :=
  let a := st.1; let b := st.2.1; let c := st.2.2.1; let d := st.2.2.2
  let fg :=
    if i < 16 then ((b &&& c) ||| (not32 b &&& d), i)
    else if i < 32 then ((d &&& b) ||| (not32 d &&& c), (5 * i + 1) % 16)
    else if i < 48 then (b ^^^ c ^^^ d, (3 * i + 5) % 16)
    else (c ^^^ (b ||| not32 d), (7 * i) % 16)
  let f := add32 (add32 (add32 fg.1 a) (md5SineTable.getD i 0)) (M.getD fg.2 0)
  (d, add32 b (rotl32 f (md5ShiftTable.getD i 0)), b, c)

/-- Process one 64-byte chunk: run the 64 rounds and add the result into
the incoming state. -/
def md5ProcessChunk (st : Nat × Nat × Nat × Nat) (chunk : List Nat) : Nat × Nat × Nat × Nat :=
  let M := chunkWords chunk
  let r := (List.range 64).foldl (md5Round M) st
  (add32 st.1 r.1, add32 st.2.1 r.2.1, add32 st.2.2.1 r.2.2.1, add32 st.2.2.2 r.2.2.2)

/-- Split a padded message into its 64-byte chunks. -/
def chunksOf64 (l : List Nat) : List (List Nat) :=
  (List.range (l.length / 64)).map (fun i => (l.drop (64 * i)).take 64)

/-- The sixteen digest bytes of an MD5 computation over a byte list. -/
def md5Digest (msg : List Nat) : List Nat :=
  let st := (chunksOf64 (md5Pad msg)).foldl md5ProcessChunk
    (0x67452301, 0xefcdab89, 0x98badcfe, 0x10325476)
  leBytes st.1 4 ++ leBytes st.2.1 4 ++ leBytes st.2.2.1 4 ++ leBytes st.2.2.2 4

/-- Lower-case hex digit for a value below 16 (`0`–`9` then `a`–`f`). -/
def hexDigitChar (n : Nat) : Char :=
  if n < 10 then Char.ofNat (48 + n) else Char.ofNat (87 + n)

/-- Lower-case hex rendering of one byte. -/
def byteToHex (b : Nat) : String :=
  String.mk [hexDigitChar (b / 16), hexDigitChar (b % 16)]

/-- `hashlib.md5(s.encode()).hexdigest()`. -/
def md5Hexdigest (s : String) : String :=
  String.join ((md5Digest (s.toUTF8.data.toList.map UInt8.toNat)).map byteToHex)

/-- The content hash computed from a dict of configuration attributes:
`hashlib.md5(json.dumps(d, sort_keys=True).encode()).hexdigest()[:8]`. -/
def configHashOfItems (items : List (String × JValue)) : String :=
  (md5Hexdigest (jsonDumpsSortKeys items)).take 8

/-- `AIModelConfiguration` dataclass.  Floats are ℚ; the optional schema is
an opaque JSON value passed through to the system under test. -/
structure AIModelConfiguration where
  model_id : String
  model_version : String
  temperature : ℚ := 3/10
  top_k : Option ℕ := none
  top_p : Option ℚ := none
  max_output_tokens : ℕ := 3000
  system_instruction : Option String := none
  response_format : String := "text"
  response_schema : Option JValue := none
deriving DecidableEq, Repr

/-- Decimal rendering of an embedded float (Python serializes floats by
`repr`; the identifier theorems depend only on this being a function). -/
def qRender (q : ℚ) : String := toString q

/-- `asdict(self)`: the attribute dict, in dataclass field-declaration
order (the order `asdict` always produces, before `sort_keys`
canonicalization). -/
def asdictItems (c : AIModelConfiguration) : List (String × JValue) :=
  [("model_id", .str c.model_id),
   ("model_version", .str c.model_version),
   ("temperature", .num (qRender c.temperature)),
   ("top_k", (c.top_k.map (fun n => JValue.num (toString n))).getD .null),
   ("top_p", (c.top_p.map (fun q => JValue.num (qRender q))).getD .null),
   ("max_output_tokens", .num (toString c.max_output_tokens)),
   ("system_instruction", (c.system_instruction.map JValue.str).getD .null),
   ("response_format", .str c.response_format),
   ("response_schema", c.response_schema.getD .null)]

/-- `AIModelConfiguration.get_config_hash` (lines 46–49). -/
def get_config_hash (c : AIModelConfiguration) : String :=
  configHashOfItems (asdictItems c)

/-! ## Theorems -/

/-- C2: a `TestResult` produced by `run_single_test` has `success = true`
exactly when the capability call returned a successful response and the
outcome validator judged its output valid; in particular a
validator-rejected output never yields a successful result even when the
call itself succeeded. -/
theorem result_success_iff_call_succeeded_and_valid
    (validate : String → TestCase → ValidationResult)
    (config_hash : String) (tc : TestCase) (call : CallOutcome)
    (execution_time : ℚ) (timestamp : String) :
    (run_single_test validate config_hash tc call execution_time timestamp).success = true ↔
      ∃ r : CallResponse, call = .resp r ∧ r.success = true ∧
        (validate r.output tc).valid = true := by
  cases call with
  | exn e => simp [run_single_test]
  | resp r =>
    by_cases hs : r.success <;> simp [run_single_test, hs]

/-- C3: whenever the capability call fails (the call raised, or the
response's success flag is false), `run_single_test` still returns a
`TestResult` — the embedding is a total function, modelling that this path
never raises — whose success flag is false, whose output is absent, and
whose error field records the failure reason. -/
theorem failed_call_yields_failure_result
    (validate : String → TestCase → ValidationResult)
    (config_hash : String) (tc : TestCase) (call : CallOutcome)
    (execution_time : ℚ) (timestamp : String)
    (h : callFailed call = true) :
    (run_single_test validate config_hash tc call execution_time timestamp).success = false ∧
    (run_single_test validate config_hash tc call execution_time timestamp).output = none ∧
    (run_single_test validate config_hash tc call execution_time timestamp).error_message =
      some (failureReason call) := by
  cases call with
  | exn e => simp [run_single_test, failureReason]
  | resp r =>
    simp only [callFailed, Bool.not_eq_true'] at h
    simp [run_single_test, failureReason, h]

/-- Witness for `failed_call_yields_failure_result` at a concrete rejected
request. -/
theorem failed_call_yields_failure_result_witness :
    (run_single_test (fun _ _ => ⟨true, [], 1⟩) "h"
        { id := "t", name := "t", input_data := "" }
        (.resp { success := false, output := "", error := some "HTTP 500: oops" }) 1 "ts").success
      = false ∧
    (run_single_test (fun _ _ => ⟨true, [], 1⟩) "h"
        { id := "t", name := "t", input_data := "" }
        (.resp { success := false, output := "", error := some "HTTP 500: oops" }) 1 "ts").error_message
      = some "HTTP 500: oops" := by
  have h := failed_call_yields_failure_result (fun _ _ => ⟨true, [], 1⟩) "h"
    { id := "t", name := "t", input_data := "" }
    (.resp { success := false, output := "", error := some "HTTP 500: oops" }) 1 "ts" rfl
  exact ⟨h.1, h.2.2⟩

/-- If the type-check branch condition passes, the type-check block leaves
the threaded result dict unchanged. -/
theorem typeCheckBlock_of_passes (env : PyEnv) (output : String) (tc : TestCase)
    (v : ValidationResult) (h : typeCheckPasses env output tc = true) :
    typeCheckBlock env output tc v = v := by
  unfold typeCheckBlock
  unfold typeCheckPasses at h
  split_ifs at * <;> simp_all

/-- If the pattern-check branch condition passes, the pattern-check block
leaves the threaded result dict unchanged. -/
theorem patternCheckBlock_of_passes (env : PyEnv) (output : String) (tc : TestCase)
    (v : ValidationResult) (h : patternCheckPasses env output tc = true) :
    patternCheckBlock env output tc v = v := by
  unfold patternCheckBlock
  unfold patternCheckPasses at h
  rcases hpb : tc.expected_output_pattern with _ | p
  · rfl
  · simp only [hpb] at h
    split_ifs at * <;> simp_all

/-- The type-check block multiplies quality by a factor in `[0,1]`, so it
preserves membership of the quality score in `[0,1]`. -/
theorem typeCheckBlock_quality_bound (env : PyEnv) (output : String) (tc : TestCase)
    (v : ValidationResult) (h0 : 0 ≤ v.quality_score) (h1 : v.quality_score ≤ 1) :
    0 ≤ (typeCheckBlock env output tc v).quality_score ∧
      (typeCheckBlock env output tc v).quality_score ≤ 1 := by
  unfold typeCheckBlock
  split_ifs <;> (try dsimp only) <;> constructor <;> nlinarith

/-- The pattern-check block preserves membership of the quality score in
`[0,1]`. -/
theorem patternCheckBlock_quality_bound (env : PyEnv) (output : String) (tc : TestCase)
    (v : ValidationResult) (h0 : 0 ≤ v.quality_score) (h1 : v.quality_score ≤ 1) :
    0 ≤ (patternCheckBlock env output tc v).quality_score ∧
      (patternCheckBlock env output tc v).quality_score ≤ 1 := by
  rcases hpb : tc.expected_output_pattern with _ | p
  · simp only [patternCheckBlock, hpb]; exact ⟨h0, h1⟩
  · simp only [patternCheckBlock, hpb]
    split_ifs <;> (try dsimp only) <;> constructor <;> nlinarith

/-- The custom-validation block preserves membership of the quality score
in `[0,1]` provided the custom multiplier (when a dict verdict supplies
one) lies in `[0,1]`; all its built-in factors (`0.3`, `0.8`) do. -/
theorem customCheckBlock_quality_bound (output : String) (tc : TestCase)
    (v : ValidationResult) (h0 : 0 ≤ v.quality_score) (h1 : v.quality_score ≤ 1)
    (hm : ∀ (f : String → Except String CustomVerdict) (cvalid : Bool)
      (cissues : List String) (cmult : ℚ), tc.validation_function = some f →
      f output = .ok (.dict cvalid cissues cmult) → 0 ≤ cmult ∧ cmult ≤ 1) :
    0 ≤ (customCheckBlock output tc v).quality_score ∧
      (customCheckBlock output tc v).quality_score ≤ 1 := by
  rcases hvf : tc.validation_function with _ | f
  · simp only [customCheckBlock, hvf]; exact ⟨h0, h1⟩
  · rcases hfo : f output with e | cv
    · simp only [customCheckBlock, hvf, hfo]
      constructor <;> nlinarith
    · rcases cv with ⟨cvalid, cissues, cmult⟩ | t
      · obtain ⟨hm0, hm1⟩ := hm f cvalid cissues cmult hvf hfo
        simp only [customCheckBlock, hvf, hfo]
        split_ifs <;> (try dsimp only) <;> constructor <;> nlinarith
      · simp only [customCheckBlock, hvf, hfo]
        split_ifs <;> (try dsimp only) <;> constructor <;> nlinarith

/-- C10: when the type check and the pattern check both pass and the test
case's custom validation function raises, `validate_output` still returns
`valid = true` — the `except` clause only records an issue and multiplies
quality by `0.8` — so a trial whose custom validator crashes can still
produce a successful `TestResult`. -/
theorem crashed_custom_validator_keeps_valid
    (env : PyEnv) (output : String) (tc : TestCase)
    (f : String → Except String CustomVerdict) (e : String)
    (hf : tc.validation_function = some f)
    (hraise : f output = .error e)
    (htype : typeCheckPasses env output tc = true)
    (hpat : patternCheckPasses env output tc = true) :
    (validate_output env output tc).valid = true ∧
    (validate_output env output tc).quality_score = 4/5 ∧
    (validate_output env output tc).issues = ["Validation function error: " ++ e] ∧
    ∀ (config_hash : String) (r : CallResponse) (execution_time : ℚ) (timestamp : String),
      r.success = true → r.output = output →
      (run_single_test (validate_output env) config_hash tc (.resp r)
        execution_time timestamp).success = true := by
  have hkey : validate_output env output tc =
      { valid := true
        issues := ["Validation function error: " ++ e]
        quality_score := 1 * (4/5) } := by
    unfold validate_output
    rw [typeCheckBlock_of_passes env output tc _ htype,
      patternCheckBlock_of_passes env output tc _ hpat]
    simp [customCheckBlock, hf, hraise, initialValidation]
  refine ⟨by rw [hkey], by rw [hkey]; norm_num, by rw [hkey], ?_⟩
  intro config_hash r execution_time timestamp hs ho
  simp [run_single_test, hs, ho, hkey]

/-- Environment in which every external check succeeds. -/
def c10_env : PyEnv :=
  { jsonLoadsOk := fun _ => true, floatParseOk := fun _ => true, reSearch := fun _ _ => true }

/-- A test case whose custom validation function always raises. -/
def c10_tc : TestCase :=
  { id := "t10", name := "crashing validator", input_data := ""
    validation_function := some (fun _ => .error "boom") }

/-- Witness for `crashed_custom_validator_keeps_valid` at a concrete
crashing validator. -/
theorem crashed_custom_validator_keeps_valid_witness :
    (validate_output c10_env "out" c10_tc).valid = true ∧
    (run_single_test (validate_output c10_env) "h" c10_tc
      (.resp { success := true, output := "out" }) 1 "ts").success = true := by
  have h := crashed_custom_validator_keeps_valid c10_env "out" c10_tc
    (fun _ => .error "boom") "boom" rfl rfl rfl rfl
  exact ⟨h.1, h.2.2.2 "h" { success := true, output := "out" } 1 "ts" rfl rfl⟩

/-- Environment in which every external check succeeds. -/
def c4_env : PyEnv :=
  { jsonLoadsOk := fun _ => true, floatParseOk := fun _ => true, reSearch := fun _ _ => true }

/-- A test case whose custom validation function returns the quality
multiplier `2.0` with a valid verdict. -/
def c4_tc : TestCase :=
  { id := "t4", name := "custom multiplier two", input_data := ""
    validation_function := some (fun _ => .ok (.dict true [] 2)) }

/-- C4 counterexample: `validate_output` performs no clamping — with a
custom multiplier of `2.0` the returned quality score is `2`, outside
`[0,1]`, refuting "the returned quality always lies in [0,1]". -/
theorem quality_not_clamped_counterexample :
    (validate_output c4_env "out" c4_tc).quality_score = 2 ∧
    ¬ (validate_output c4_env "out" c4_tc).quality_score ≤ 1 := by
  norm_num [validate_output, customCheckBlock, patternCheckBlock, typeCheckBlock,
    initialValidation, c4_env, c4_tc]

/-- C4 as amended: the quality score is the unclamped product of the
per-check multipliers; it lies in `[0,1]` whenever the custom validation
function's quality multiplier does (in particular whenever there is no
custom function), since every built-in factor lies in `[0,1]`. -/
theorem quality_product_in_unit_interval
    (env : PyEnv) (output : String) (tc : TestCase)
    (hm : ∀ (f : String → Except String CustomVerdict) (cvalid : Bool)
      (cissues : List String) (cmult : ℚ), tc.validation_function = some f →
      f output = .ok (.dict cvalid cissues cmult) → 0 ≤ cmult ∧ cmult ≤ 1) :
    0 ≤ (validate_output env output tc).quality_score ∧
    (validate_output env output tc).quality_score ≤ 1 := by
  unfold validate_output
  have h1 := typeCheckBlock_quality_bound env output tc initialValidation
    (by norm_num [initialValidation]) (by norm_num [initialValidation])
  have h2 := patternCheckBlock_quality_bound env output tc _ h1.1 h1.2
  exact customCheckBlock_quality_bound output tc _ h2.1 h2.2 hm

/-- A test case whose custom validation function returns the quality
multiplier `0.5`. -/
def c4w_tc : TestCase :=
  { id := "t4w", name := "custom multiplier half", input_data := ""
    validation_function := some (fun _ => .ok (.dict true [] (1/2))) }

/-- Witness for `quality_product_in_unit_interval` at a concrete test case
with a custom multiplier of `0.5`. -/
theorem quality_product_in_unit_interval_witness :
    0 ≤ (validate_output c4_env "out" c4w_tc).quality_score ∧
    (validate_output c4_env "out" c4w_tc).quality_score ≤ 1 := by
  refine quality_product_in_unit_interval c4_env "out" c4w_tc ?_
  intro f cvalid cissues cmult hf hfo
  simp only [c4w_tc, Option.some.injEq] at hf
  subst hf
  simp only [Except.ok.injEq, CustomVerdict.dict.injEq] at hfo
  obtain ⟨-, -, hc⟩ := hfo
  subst hc
  norm_num

/-- Environment whose pattern search matches exactly the output `"4"`. -/
def c1_env : PyEnv :=
  { jsonLoadsOk := fun _ => true, floatParseOk := fun _ => true
    reSearch := fun _ s => s == "4" }

/-- A test case expecting the output to match the pattern `"4"`. -/
def c1_tc : TestCase :=
  { id := "t1", name := "expects 4", input_data := "2+2"
    expected_output_pattern := some "4" }

/-- A trial whose call succeeded with output `"4"`, accepted by the validator. -/
def c1_success_trial : TestResult :=
  run_single_test (validate_output c1_env) "h" c1_tc
    (.resp { success := true, output := "4" }) 1 "ts"

/-- A trial whose call succeeded with output `"5"`, rejected by the
validator, hence a failed trial that still carries an output. -/
def c1_rejected_trial : TestResult :=
  run_single_test (validate_output c1_env) "h" c1_tc
    (.resp { success := true, output := "5" }) 1 "ts"

/-- A trial whose capability call raised, hence a failed trial with no
output. -/
def c1_failed_trial : TestResult :=
  run_single_test (validate_output c1_env) "h" c1_tc (.exn "timeout") 1 "ts"

/-- The fully evaluated form of `c1_success_trial`. -/
def c1_success_val : TestResult :=
  { test_case_id := "t1", model_config_hash := "h", execution_timestamp := "ts"
    success := true, output := some "4", execution_time_ms := 1
    quality_score := some 1
    validation_details := some { valid := true, issues := [], quality_score := 1 } }

/-- The fully evaluated form of `c1_rejected_trial`. -/
def c1_rejected_val : TestResult :=
  { test_case_id := "t1", model_config_hash := "h", execution_timestamp := "ts"
    success := false, output := some "5", execution_time_ms := 1
    quality_score := some (7/10)
    validation_details := some ⟨false, ["Output does not match pattern: 4"], 7/10⟩ }

/-- The fully evaluated form of `c1_failed_trial`. -/
def c1_failed_val : TestResult :=
  { test_case_id := "t1", model_config_hash := "h", execution_timestamp := "ts"
    success := false, output := none, execution_time_ms := 1
    error_message := some "timeout" }

/-- C1 counterexample: the code counts the distinct outputs of every trial
whose output is present, not only of the successful trials — a
validator-rejected (failed) trial still contributes its output, so on one
successful trial (`"4"`) plus one rejected trial (`"5"`) the code computes
`1/2` while the claim's formula gives `1/1 = 1`; and when no trial
produced an output the code returns `0`, which is outside `(0, 1]`. -/
theorem consistency_counts_rejected_outputs_counterexample :
    c1_success_trial.success = true ∧
    c1_rejected_trial.success = false ∧
    c1_rejected_trial.output = some "5" ∧
    consistency_score [c1_success_trial, c1_rejected_trial] = 1/2 ∧
    claimed_consistency_score [c1_success_trial, c1_rejected_trial] = 1 ∧
    consistency_score [c1_success_trial, c1_rejected_trial] ≠
      claimed_consistency_score [c1_success_trial, c1_rejected_trial] ∧
    consistency_score [c1_failed_trial] = 0 ∧
    ¬ 0 < consistency_score [c1_failed_trial] := by
  have hs : c1_success_trial = c1_success_val := by
    simp [c1_success_trial, c1_success_val, run_single_test, validate_output,
      customCheckBlock, patternCheckBlock, typeCheckBlock, initialValidation, c1_env, c1_tc]
  have hr : c1_rejected_trial = c1_rejected_val := by
    simp [c1_rejected_trial, c1_rejected_val, run_single_test, validate_output,
      customCheckBlock, patternCheckBlock, typeCheckBlock, initialValidation, c1_env, c1_tc]
  have hf : c1_failed_trial = c1_failed_val := by
    simp [c1_failed_trial, c1_failed_val, run_single_test, c1_tc]
  refine ⟨by rw [hs]; rfl, by rw [hr]; rfl, by rw [hr]; rfl, ?_, ?_, ?_, ?_, ?_⟩
  · rw [hs, hr]
    simp [consistency_score, unique_outputs, c1_success_val, c1_rejected_val]
  · rw [hs, hr]
    simp [claimed_consistency_score, claimed_unique_outputs, c1_success_val, c1_rejected_val]
  · rw [hs, hr]
    simp [consistency_score, claimed_consistency_score, unique_outputs,
      claimed_unique_outputs, c1_success_val, c1_rejected_val]
  · rw [hf]
    simp [consistency_score, unique_outputs, c1_failed_val]
  · rw [hf]
    simp [consistency_score, unique_outputs, c1_failed_val]

/-- C1 as amended: the consistency score equals `1/U` where `U` counts the
distinct stringified outputs of every trial that produced an output
(validator-rejected trials included); whenever at least one trial produced
an output, `U ≥ 1` and the score lies in `(0, 1]` (it is `0` only when no
trial produced any output). -/
theorem consistency_score_amended (results : List TestResult)
    (h : ∃ r ∈ results, r.output ≠ none) :
    1 ≤ (unique_outputs results).card ∧
    consistency_score results = 1 / ((unique_outputs results).card : ℚ) ∧
    0 < consistency_score results ∧ consistency_score results ≤ 1 := by
  obtain ⟨r, hr, hout⟩ := h
  rcases ho : r.output with _ | o
  · exact absurd ho hout
  have hmem : o ∈ unique_outputs results := by
    simp only [unique_outputs, List.mem_toFinset, List.mem_filterMap]
    exact ⟨r, hr, ho⟩
  have hcard : 1 ≤ (unique_outputs results).card := Finset.card_pos.mpr ⟨o, hmem⟩
  have hne : unique_outputs results ≠ ∅ := by
    intro hcontra
    rw [hcontra] at hmem
    exact absurd hmem (Finset.not_mem_empty o)
  have hc : consistency_score results = 1 / ((unique_outputs results).card : ℚ) := by
    simp [consistency_score, hne]
  have hcast : (1 : ℚ) ≤ ((unique_outputs results).card : ℚ) := by exact_mod_cast hcard
  refine ⟨hcard, hc, ?_, ?_⟩
  · rw [hc]
    exact one_div_pos.mpr (by linarith)
  · rw [hc]
    rw [div_le_one (by linarith)]
    exact hcast

/-- A trial with an output, for the consistency-range witness. -/
def c1w_trial : TestResult :=
  { test_case_id := "tw", model_config_hash := "h", execution_timestamp := "ts"
    success := true, output := some "42", execution_time_ms := 1 }

/-- Witness for `consistency_score_amended` at a concrete one-trial list. -/
theorem consistency_score_amended_witness :
    0 < consistency_score [c1w_trial] ∧ consistency_score [c1w_trial] ≤ 1 := by
  have h := consistency_score_amended [c1w_trial]
    ⟨c1w_trial, by simp, by simp [c1w_trial]⟩
  exact ⟨h.2.2.1, h.2.2.2⟩

/-- C9: the quality statistics are computed over exactly the trials whose
quality value is defined — inserting a trial with `quality_score = none`
(e.g. a failed call) anywhere in the trial list leaves the collected
quality data, its mean, and its standard deviation unchanged, rather than
contributing a zero. -/
theorem quality_stats_exclude_undefined (l₁ l₂ : List TestResult) (r : TestResult)
    (h : r.quality_score = none) :
    quality_scores (l₁ ++ r :: l₂) = quality_scores (l₁ ++ l₂) ∧
    avg_quality_score (l₁ ++ r :: l₂) = avg_quality_score (l₁ ++ l₂) ∧
    quality_score_std_sq (l₁ ++ r :: l₂) = quality_score_std_sq (l₁ ++ l₂) := by
  have key : quality_scores (l₁ ++ r :: l₂) = quality_scores (l₁ ++ l₂) := by
    simp [quality_scores, List.filterMap_append, List.filterMap_cons, h]
  refine ⟨key, ?_, ?_⟩
  · unfold avg_quality_score
    rw [key]
  · unfold quality_score_std_sq
    rw [key]

/-- A trial with quality `1`. -/
def c9_q1 : TestResult :=
  { test_case_id := "t9", model_config_hash := "h", execution_timestamp := "ts"
    success := true, output := some "a", execution_time_ms := 1, quality_score := some 1 }

/-- A failed trial with undefined quality. -/
def c9_undefined : TestResult :=
  { test_case_id := "t9", model_config_hash := "h", execution_timestamp := "ts"
    success := false, output := none, execution_time_ms := 1
    error_message := some "timeout" }

/-- A trial with quality `0.5`. -/
def c9_q2 : TestResult :=
  { test_case_id := "t9", model_config_hash := "h", execution_timestamp := "ts"
    success := true, output := some "b", execution_time_ms := 1
    quality_score := some (1/2) }

/-- Witness for `quality_stats_exclude_undefined` at a concrete mixed
trial list. -/
theorem quality_stats_exclude_undefined_witness :
    avg_quality_score [c9_q1, c9_undefined, c9_q2] = avg_quality_score [c9_q1, c9_q2] ∧
    quality_score_std_sq [c9_q1, c9_undefined, c9_q2] =
      quality_score_std_sq [c9_q1, c9_q2] := by
  have h := quality_stats_exclude_undefined [c9_q1] [c9_q2] c9_undefined rfl
  exact ⟨h.2.1, h.2.2⟩

/-- C6: for a nonempty list of per-configuration success rates, the class
is `easy` iff the mean is `> 0.8`, `medium` iff the mean lies in
`(0.5, 0.8]`, and `hard` iff the mean is `≤ 0.5`. -/
theorem difficulty_thresholds (rates : List ℚ) (hnonempty : rates ≠ []) :
    (analyze_difficulty rates = "easy" ↔ 4/5 < meanQ rates) ∧
    (analyze_difficulty rates = "medium" ↔ 1/2 < meanQ rates ∧ meanQ rates ≤ 4/5) ∧
    (analyze_difficulty rates = "hard" ↔ meanQ rates ≤ 1/2) := by
  clear hnonempty
  unfold analyze_difficulty difficulty_level
  split_ifs with h1 h2 <;> refine ⟨?_, ?_, ?_⟩ <;> simp_all <;> linarith

/-- Witness for `difficulty_thresholds` at the success-rate list `[1]`. -/
theorem difficulty_thresholds_witness : analyze_difficulty [1] = "easy" :=
  (difficulty_thresholds [1] (by simp)).1.mpr (by norm_num [meanQ])

/-- C7 counterexample: a mean success rate of exactly `0.5` is classified
`hard`, not `medium` as the claim states (the `medium` branch requires a
strict `> 0.5`). -/
theorem boundary_half_is_hard_counterexample :
    difficulty_level (1/2) = "hard" ∧ difficulty_level (1/2) ≠ "medium" := by
  have h : difficulty_level (1/2) = "hard" := by
    unfold difficulty_level
    rw [if_neg (by norm_num), if_neg (by norm_num)]
  exact ⟨h, by rw [h]; decide⟩

/-- C7 as amended: a mean of exactly `0.5` is classified `hard`, `0.8` is
`medium`, `0.8001` is `easy`, and the classification is monotonic in the
mean success rate under the order `hard < medium < easy`. -/
theorem difficulty_boundaries_monotone (a b : ℚ) (hab : a ≤ b) :
    difficulty_level (1/2) = "hard" ∧
    difficulty_level (4/5) = "medium" ∧
    difficulty_level (8001/10000) = "easy" ∧
    difficultyRank (difficulty_level a) ≤ difficultyRank (difficulty_level b) := by
  have hhard : difficultyRank "hard" = 0 := rfl
  have hmed : difficultyRank "medium" = 1 := rfl
  have heasy : difficultyRank "easy" = 2 := rfl
  refine ⟨?_, ?_, ?_, ?_⟩
  · unfold difficulty_level
    rw [if_neg (by norm_num), if_neg (by norm_num)]
  · unfold difficulty_level
    rw [if_neg (by norm_num), if_pos (by norm_num)]
  · unfold difficulty_level
    rw [if_pos (by norm_num)]
  · unfold difficulty_level
    split_ifs <;> simp only [hhard, hmed, heasy] <;> first | omega | linarith

/-- Witness for `difficulty_boundaries_monotone` at the pair
`(0.3, 0.9)`. -/
theorem difficulty_boundaries_monotone_witness :
    difficultyRank (difficulty_level (3/10)) ≤ difficultyRank (difficulty_level (9/10)) :=
  (difficulty_boundaries_monotone (3/10) (9/10) (by norm_num)).2.2.2

/-- A configuration entry with low consistency, inserted first. -/
def c8_lowcons : ConfigPerformance :=
  { config_hash := "cfgA", model_id := "m", overall_success_rate := 1
    avg_consistency := 0, tests_passed := 3 }

/-- A configuration entry with high consistency and the same success rate,
inserted second. -/
def c8_highcons : ConfigPerformance :=
  { config_hash := "cfgB", model_id := "m", overall_success_rate := 1
    avg_consistency := 1, tests_passed := 3 }

/-- C8 counterexample: the sort key is the overall success rate only — two
configurations tied on success rate keep their insertion order even though
the second has strictly higher consistency, refuting "the one with the
higher consistency is ranked first". -/
theorem ranking_ignores_consistency_counterexample :
    rank_configurations [c8_lowcons, c8_highcons] = [c8_lowcons, c8_highcons] ∧
    c8_lowcons.overall_success_rate = c8_highcons.overall_success_rate ∧
    c8_lowcons.avg_consistency < c8_highcons.avg_consistency ∧
    c8_lowcons ≠ c8_highcons := by
  refine ⟨?_, rfl, by norm_num [c8_lowcons, c8_highcons], by simp [c8_lowcons, c8_highcons]⟩
  unfold rank_configurations
  apply List.mergeSort_of_sorted
  simp [c8_lowcons, c8_highcons]

/-- C8 as amended: the ranking is a permutation of the input sorted in
descending order of overall success rate, and it is stable — any two
entries with equal success rate keep their insertion order, regardless of
their consistency values; consistency is not a sort key. -/
theorem ranking_sorted_stable (l : List ConfigPerformance) :
    (rank_configurations l).Perm l ∧
    (rank_configurations l).Pairwise
      (fun a b => b.overall_success_rate ≤ a.overall_success_rate) ∧
    ∀ a b : ConfigPerformance, a.overall_success_rate = b.overall_success_rate →
      List.Sublist [a, b] l → List.Sublist [a, b] (rank_configurations l) := by
  have htrans : ∀ a b c : ConfigPerformance,
      decide (b.overall_success_rate ≤ a.overall_success_rate) = true →
      decide (c.overall_success_rate ≤ b.overall_success_rate) = true →
      decide (c.overall_success_rate ≤ a.overall_success_rate) = true := by
    intro a b c h1 h2
    simp only [decide_eq_true_eq] at *
    exact le_trans h2 h1
  have htotal : ∀ a b : ConfigPerformance,
      (decide (b.overall_success_rate ≤ a.overall_success_rate) ||
        decide (a.overall_success_rate ≤ b.overall_success_rate)) = true := by
    intro a b
    simp only [Bool.or_eq_true, decide_eq_true_eq]
    exact le_total b.overall_success_rate a.overall_success_rate
  refine ⟨List.mergeSort_perm l _, ?_, ?_⟩
  · exact (List.sorted_mergeSort htrans htotal l).imp (fun h => of_decide_eq_true h)
  · intro a b hrate hsub
    exact List.pair_sublist_mergeSort htrans htotal
      (decide_eq_true (le_of_eq hrate.symm)) hsub

/-- First-inserted entry of the stability witness pair. -/
def c8w_first : ConfigPerformance :=
  { config_hash := "cfgC", model_id := "m", overall_success_rate := 1
    avg_consistency := 0, tests_passed := 1 }

/-- Second-inserted entry of the stability witness pair, tied on success
rate. -/
def c8w_second : ConfigPerformance :=
  { config_hash := "cfgD", model_id := "m", overall_success_rate := 1
    avg_consistency := 1, tests_passed := 1 }

/-- Witness for `ranking_sorted_stable` at a concrete tied pair. -/
theorem ranking_sorted_stable_witness :
    List.Sublist [c8w_first, c8w_second] (rank_configurations [c8w_first, c8w_second]) :=
  (ranking_sorted_stable [c8w_first, c8w_second]).2.2 c8w_first c8w_second rfl
    (List.Sublist.refl _)

/-- The `sort_keys=True` canonicalization is invariant under permutation of
the dict items, provided the keys are distinct (as a dict's keys are). -/
theorem sortedItems_perm_invariant (p q : List (String × JValue))
    (hperm : p.Perm q) (hnodup : (p.map Prod.fst).Nodup) :
    sortedItems p = sortedItems q := by
  have htrans : ∀ a b c : String × JValue, decide (a.1 ≤ b.1) = true →
      decide (b.1 ≤ c.1) = true → decide (a.1 ≤ c.1) = true := by
    intro a b c h1 h2
    simp only [decide_eq_true_eq] at *
    exact le_trans h1 h2
  have htotal : ∀ a b : String × JValue,
      (decide (a.1 ≤ b.1) || decide (b.1 ≤ a.1)) = true := by
    intro a b
    simp only [Bool.or_eq_true, decide_eq_true_eq]
    exact le_total a.1 b.1
  have hpermp : List.Perm (sortedItems p) p := List.mergeSort_perm p _
  have hpermq : List.Perm (sortedItems q) q := List.mergeSort_perm q _
  have hpq : List.Perm (sortedItems p) (sortedItems q) :=
    hpermp.trans (hperm.trans hpermq.symm)
  have hnodp : ((sortedItems p).map Prod.fst).Nodup :=
    ((hpermp.map Prod.fst).nodup_iff).mpr hnodup
  have hnodq : ((sortedItems q).map Prod.fst).Nodup :=
    ((hpq.map Prod.fst).nodup_iff).mp hnodp
  have hstrict : ∀ l : List (String × JValue), (l.map Prod.fst).Nodup →
      l.Pairwise (fun a b => a.1 ≤ b.1) → l.Pairwise (fun a b => a.1 < b.1) := by
    intro l hnd hle
    have hne : l.Pairwise (fun a b : String × JValue => a.1 ≠ b.1) :=
      List.pairwise_map.mp hnd
    exact (hle.and hne).imp (fun h => lt_of_le_of_ne h.1 h.2)
  have hsortp : (sortedItems p).Pairwise (fun a b : String × JValue => a.1 ≤ b.1) :=
    (List.sorted_mergeSort htrans htotal p).imp (fun h => of_decide_eq_true h)
  have hsortq : (sortedItems q).Pairwise (fun a b : String × JValue => a.1 ≤ b.1) :=
    (List.sorted_mergeSort htrans htotal q).imp (fun h => of_decide_eq_true h)
  haveI : IsAntisymm (String × JValue) (fun a b => a.1 < b.1) :=
    ⟨fun a b h1 h2 => absurd (h1.trans h2) (lt_irrefl _)⟩
  exact List.eq_of_perm_of_sorted hpq (hstrict _ hnodp hsortp) (hstrict _ hnodq hsortq)

/-- C5: the content hash is computed from the sorted-key serialization, so
permuting the attribute dict's items (distinct keys) leaves it unchanged;
and `get_config_hash` is a pure function of the configuration's
attributes — two configurations agreeing on every field have the same
identifier. -/
theorem config_hash_deterministic_and_order_independent
    (p q : List (String × JValue)) (hperm : p.Perm q)
    (hnodup : (p.map Prod.fst).Nodup)
    (c₁ c₂ : AIModelConfiguration)
    (hid : c₁.model_id = c₂.model_id)
    (hver : c₁.model_version = c₂.model_version)
    (htemp : c₁.temperature = c₂.temperature)
    (htk : c₁.top_k = c₂.top_k)
    (htp : c₁.top_p = c₂.top_p)
    (hmax : c₁.max_output_tokens = c₂.max_output_tokens)
    (hsys : c₁.system_instruction = c₂.system_instruction)
    (hfmt : c₁.response_format = c₂.response_format)
    (hschema : c₁.response_schema = c₂.response_schema) :
    configHashOfItems p = configHashOfItems q ∧
    get_config_hash c₁ = get_config_hash c₂ := by
  constructor
  · have hs := sortedItems_perm_invariant p q hperm hnodup
    simp [configHashOfItems, jsonDumpsSortKeys, hs]
  · have hcc : c₁ = c₂ := by
      cases c₁; cases c₂; simp_all
    rw [hcc]

/-- One dict item of the hash-invariance witness. -/
def c5_pair_model : String × JValue := ("model_id", .str "m")

/-- The other dict item of the hash-invariance witness. -/
def c5_pair_temp : String × JValue := ("temperature", .num "0.3")

/-- A concrete configuration for the hash witness. -/
def c5_config : AIModelConfiguration := { model_id := "m", model_version := "v" }

/-- Witness for `config_hash_deterministic_and_order_independent` at a
concrete two-item dict given in both orders. -/
theorem config_hash_order_independent_witness :
    configHashOfItems [c5_pair_model, c5_pair_temp] =
      configHashOfItems [c5_pair_temp, c5_pair_model] ∧
    get_config_hash c5_config = get_config_hash c5_config :=
  config_hash_deterministic_and_order_independent
    [c5_pair_model, c5_pair_temp] [c5_pair_temp, c5_pair_model]
    (List.Perm.swap c5_pair_temp c5_pair_model [])
    (by decide) c5_config c5_config rfl rfl rfl rfl rfl rfl rfl rfl rfl

end TestFramework
